import Mathlib

/-!
Verification of the PostCrawl node-sdk request/response pipeline.

This development shallowly embeds the canonical (camelCase, async) variant of
the SDK found in src/client.ts, src/types.ts, src/exceptions.ts and
src/constants.ts: client construction, the retry/timeout/error-classification
logic of makeRequest, the rate-limit tracker, zod-style request validation for
the three endpoint operations, wire-format construction, and the raw-payload
type guards.

JSON values are modelled by the inductive `Jx` (numbers as integers, which
suffices for every value the claims touch).  JavaScript numbers that can be
NaN are modelled by `JsNum`.  The fetch Response is modelled by
`HttpResponse`; a body of `none` means response.json() fails, in which case
the error handler falls back to the body text (modelling responses whose text
remains readable, as in the test mocks).
-/

namespace PostCrawl

/-- A JSON-like JavaScript value: null, undefined, booleans, (integer)
numbers, strings, arrays and objects with ordered string keys. -/
inductive Jx where
  | jnull
  | jundef
  | jbool (b : Bool)
  | jnum (n : Int)
  | jstr (s : String)
  | jarr (xs : List Jx)
  | jobj (fields : List (String × Jx))

/-- A JavaScript number that may be NaN (result of parseInt on non-numeric
input). -/
inductive JsNum where
  | nan
  | val (n : Int)
deriving DecidableEq

/-- Accumulate decimal digits, as parseInt does on the digit prefix. -/
def digitsToNat : List Char → Nat → Nat
  | [], acc => acc
  | c :: cs, acc => digitsToNat cs (acc * 10 + (c.toNat - 48))

/-- Models JavaScript parseInt(s, 10): skip leading whitespace, optional
sign, then the longest digit prefix; NaN when no digits are found. -/
def jsParseInt (s : String) : JsNum :=
  let cs := s.toList.dropWhile Char.isWhitespace
  let neg : Bool := cs.head? = some '-'
  let cs2 := if cs.head? = some '-' ∨ cs.head? = some '+' then cs.tail else cs
  let ds := cs2.takeWhile Char.isDigit
  if ds.isEmpty then JsNum.nan
  else JsNum.val ((if neg then (-1 : Int) else 1) * Int.ofNat (digitsToNat ds 0))

/-- JavaScript truthiness of a `Jx` value. -/
def jsTruthy : Jx → Bool
  | Jx.jnull => false
  | Jx.jundef => false
  | Jx.jbool b => b
  | Jx.jnum n => n != 0
  | Jx.jstr s => s != ""
  | Jx.jarr _ => true
  | Jx.jobj _ => true

/-- Models the JavaScript test `typeof v === "object"` (true for null,
arrays and plain objects). -/
def typeofObject : Jx → Bool
  | Jx.jnull => true
  | Jx.jarr _ => true
  | Jx.jobj _ => true
  | _ => false

/-- Whether the value is exactly null. -/
def isNullJx : Jx → Bool
  | Jx.jnull => true
  | _ => false

/-- Models the JavaScript `k in v` test as reached behind a typeof-object
guard: key membership for objects; arrays carry only index keys, and the
probed keys here are non-numeric. -/
def jsInOp (k : String) : Jx → Bool
  | Jx.jobj fs => fs.any (fun f => f.1 == k)
  | _ => false

/-- Property access `v[k]`: the field value, or undefined when absent or when
the receiver is not an object. -/
def jField (j : Jx) (k : String) : Jx :=
  match j with
  | Jx.jobj fs => ((fs.find? (fun f => f.1 == k)).map (fun f => f.2)).getD Jx.jundef
  | _ => Jx.jundef

/-- Read a field as a string; non-string or absent fields act as undefined. -/
def jStrField (j : Jx) (k : String) : Option String :=
  match jField j k with
  | Jx.jstr s => some s
  | _ => none

/-- A field-level validation detail triple, src/types.ts ErrorDetail. -/
structure ErrorDetail where
  field : String
  code : String
  message : String
deriving DecidableEq

/-- The wire error body, src/types.ts ErrorResponse, as the unchecked
property reads performed by handleErrorResponse see it (each field may be
absent). -/
structure ErrorResponse where
  error : Option String
  message : Option String
  requestId : Option String
  details : Option (List ErrorDetail)

/-- Decode one entry of an error body details array (string field reads). -/
def decodeDetail (j : Jx) : ErrorDetail :=
  { field := (jStrField j "field").getD ""
    code := (jStrField j "code").getD ""
    message := (jStrField j "message").getD "" }

/-- Read the details array of an error body, when present. -/
def jDetailsField (j : Jx) : Option (List ErrorDetail) :=
  match jField j "details" with
  | Jx.jarr xs => some (xs.map decodeDetail)
  | _ => none

/-- The typed error taxonomy of src/exceptions.ts, with the constructor
defaults of the exception classes applied at construction sites. -/
inductive PCError where
  | authentication (message : String) (requestId : Option String)
  | insufficientCredits (message : String) (creditsRequired creditsAvailable : Option JsNum)
      (requestId : Option String)
  | validation (message : Option String) (details : List ErrorDetail) (requestId : Option String)
  | rateLimit (message : String) (retryAfter : Option JsNum) (requestId : Option String)
  | api (message : Option String) (statusCode : Nat) (requestId : Option String)
  | network (message : String) (cause : String)
  | timeout (message : String)

/-- Kind discriminator: AuthenticationError. -/
def PCError.isAuthentication : PCError → Bool
  | PCError.authentication _ _ => true
  | _ => false

/-- Kind discriminator: InsufficientCreditsError. -/
def PCError.isInsufficientCredits : PCError → Bool
  | PCError.insufficientCredits _ _ _ _ => true
  | _ => false

/-- Kind discriminator: RateLimitError. -/
def PCError.isRateLimit : PCError → Bool
  | PCError.rateLimit _ _ _ => true
  | _ => false

/-- The retryAfter field carried by a RateLimitError, if any. -/
def PCError.retryAfterOf : PCError → Option JsNum
  | PCError.rateLimit _ ra _ => ra
  | _ => none

/-- The rate-limit response headers read by the client, plus Retry-After.
`none` models an absent header; `some s` models headers.get returning s. -/
structure RespHeaders where
  rlLimit : Option String
  rlRemaining : Option String
  rlReset : Option String
  retryAfter : Option String

/-- The fetch Response as seen by makeRequest: status, headers, the parsed
JSON body (none when response.json() fails) and the raw body text used by
the error-handler fallback. -/
structure HttpResponse where
  status : Nat
  headers : RespHeaders
  body : Option Jx
  bodyText : String

/-- response.ok: status in the 2xx success range. -/
def responseOk (status : Nat) : Bool :=
  200 ≤ status && status < 300

/-- src/types.ts RateLimitInfo: three independently nullable numbers.
`none` is the null field; `some` carries the parseInt result. -/
structure RateLimitInfo where
  limit : Option JsNum
  remaining : Option JsNum
  reset : Option JsNum
deriving DecidableEq

/-- The all-null state the client starts with. -/
def RateLimitInfo.initial : RateLimitInfo := ⟨none, none, none⟩

/-- One field update of updateRateLimitInfo: `if (h) field = parseInt(h)`.
An absent header or an empty (falsy) header string leaves the field. -/
def updateField (cur : Option JsNum) (h : Option String) : Option JsNum :=
  match h with
  | none => cur
  | some s => if s = "" then cur else some (jsParseInt s)

/-- src/client.ts updateRateLimitInfo: update each field independently from
its header. -/
def updateRateLimitInfo (rl : RateLimitInfo) (hs : RespHeaders) : RateLimitInfo :=
  { limit := updateField rl.limit hs.rlLimit
    remaining := updateField rl.remaining hs.rlRemaining
    reset := updateField rl.reset hs.rlReset }

/-- Constants from src/constants.ts. -/
def DEFAULT_BASE_URL : String := "https://edge.postcrawl.com"

/-- src/constants.ts DEFAULT_TIMEOUT (milliseconds). -/
def DEFAULT_TIMEOUT : Nat := 90000

/-- src/constants.ts DEFAULT_MAX_RETRIES. -/
def DEFAULT_MAX_RETRIES : Nat := 3

/-- src/constants.ts DEFAULT_RETRY_DELAY (milliseconds). -/
def DEFAULT_RETRY_DELAY : Nat := 1000

/-- The public constructor options, src/types.ts PostCrawlClientOptions. -/
structure PostCrawlClientOptions where
  apiKey : String
  baseUrl : Option String
  timeout : Option Nat
  maxRetries : Option Nat
  retryDelay : Option Nat

/-- The immutable client configuration held by a constructed client. -/
structure ClientConfig where
  apiKey : String
  baseUrl : String
  timeout : Nat
  maxRetries : Nat
  retryDelay : Nat
deriving DecidableEq

/-- JavaScript `v || d` coalescing for an optional number option: undefined
and the falsy 0 both yield the default. -/
def jsOrNat (v : Option Nat) (d : Nat) : Nat :=
  match v with
  | none => d
  | some n => if n = 0 then d else n

/-- JavaScript `v || d` for an optional string option. -/
def jsOrStr (v : Option String) (d : String) : String :=
  match v with
  | none => d
  | some s => if s = "" then d else s

/-- s.startsWith(p), computed on the character list. -/
def strStartsWith (s p : String) : Bool :=
  s.data.take p.data.length == p.data

/-- JavaScript String.prototype.trim: strip leading and trailing
whitespace. -/
def jsTrim (s : String) : String :=
  ⟨((s.data.dropWhile Char.isWhitespace).reverse.dropWhile Char.isWhitespace).reverse⟩

/-- baseUrl.replace of one trailing slash, as in the constructor. -/
def stripTrailingSlash (s : String) : String :=
  match s.data.getLast? with
  | some c => if c = '/' then ⟨s.data.dropLast⟩ else s
  | none => s

/-- The PostCrawlClient constructor of src/client.ts: reject an empty or
non-sk_ key, then coalesce each option with || against the defaults. -/
def mkClientConfig (o : PostCrawlClientOptions) : Except String ClientConfig :=
  if o.apiKey = "" then Except.error "API key is required"
  else if strStartsWith o.apiKey "sk_" = false then Except.error "API key must start with sk_"
  else Except.ok
    { apiKey := o.apiKey
      baseUrl := stripTrailingSlash (jsOrStr o.baseUrl DEFAULT_BASE_URL)
      timeout := jsOrNat o.timeout DEFAULT_TIMEOUT
      maxRetries := jsOrNat o.maxRetries DEFAULT_MAX_RETRIES
      retryDelay := jsOrNat o.retryDelay DEFAULT_RETRY_DELAY }

/-- The error-body view built by handleErrorResponse: the parsed JSON body
read as an ErrorResponse, or the fallback built from the body text and the
status code when the body does not parse as JSON. -/
def decodeErrorResponse (r : HttpResponse) : ErrorResponse :=
  match r.body with
  | some j =>
      { error := jStrField j "error"
        message := jStrField j "message"
        requestId := jStrField j "requestId"
        details := jDetailsField j }
  | none =>
      { error := some "Unknown error"
        message := some (if r.bodyText = "" then "HTTP " ++ toString r.status else r.bodyText)
        requestId := none
        details := none }

/-- src/client.ts handleErrorResponse: classify a non-success response by
its status code into the typed error taxonomy, applying the exception-class
constructor defaults for an undefined message. -/
def handleErrorResponse (r : HttpResponse) : PCError :=
  let er := decodeErrorResponse r
  let requestId := er.requestId
  if r.status = 401 then
    PCError.authentication (er.message.getD "Invalid or missing API key") requestId
  else if r.status = 403 then
    PCError.insufficientCredits (er.message.getD "Insufficient credits") none none requestId
  else if r.status = 422 then
    PCError.validation er.message (er.details.getD []) requestId
  else if r.status = 429 then
    PCError.rateLimit (er.message.getD "Rate limit exceeded")
      (match r.headers.retryAfter with
       | none => none
       | some s => if s = "" then none else some (jsParseInt s))
      requestId
  else
    PCError.api er.message r.status requestId

/-- What one fetch invocation does when it is not aborted: resolve with a
response, or reject with a (network-level) error message. -/
inductive FetchOutcome where
  | resp (r : HttpResponse)
  | throwErr (msg : String)

/-- One transport attempt: how long the exchange takes and how it ends.
The abort timer armed with the configured timeout fires when the elapsed
time reaches it, making fetch reject with AbortError. -/
structure Attempt where
  elapsed : Nat
  outcome : FetchOutcome

/-- What the try block of makeRequest throws, as discriminated by its catch
clause: an AbortError, a typed PostCrawl error (instanceof APIError,
NetworkError or TimeoutError), or a plain error. -/
inductive Thrown where
  | abortErr
  | pc (e : PCError)
  | js (msg : String)

/-- One pass through the try block of makeRequest: abort when the timer
fires first; otherwise update rate-limit info from the completed response,
classify a non-ok status, and parse the success body. -/
def attemptResult (cfg : ClientConfig) (a : Attempt) (rl : RateLimitInfo) :
    Except Thrown Jx × RateLimitInfo :=
  if cfg.timeout ≤ a.elapsed then (Except.error Thrown.abortErr, rl)
  else
    match a.outcome with
    | FetchOutcome.throwErr m => (Except.error (Thrown.js m), rl)
    | FetchOutcome.resp r =>
        let rl2 := updateRateLimitInfo rl r.headers
        if responseOk r.status then
          match r.body with
          | some j => (Except.ok j, rl2)
          | none => (Except.error (Thrown.js "Unexpected end of JSON input"), rl2)
        else (Except.error (Thrown.pc (handleErrorResponse r)), rl2)

/-- The observable outcome of a makeRequest call: the result, how many times
the transport was invoked, the backoff waits performed (in order), the body
sent on each invocation, and the final rate-limit state. -/
structure ExecResult where
  result : Except PCError Jx
  calls : Nat
  waits : List Nat
  sent : List Jx
  rl : RateLimitInfo

/-- src/client.ts makeRequest: run one attempt; rethrow a timeout as
TimeoutError and a typed error unchanged; on a plain (network) error retry
with linear backoff while retryCount < maxRetries, finally wrapping the
cause in a NetworkError.  The recursion of the source is bounded by
maxRetries - retryCount; that quantity is carried here as the structural
argument remaining (positive remaining is exactly the retry guard
retryCount < maxRetries). -/
def makeRequestGo (cfg : ClientConfig) (tr : Nat → Attempt) (body : Jx) :
    Nat → Nat → RateLimitInfo → ExecResult
  | remaining, retryCount, rl =>
    match attemptResult cfg (tr retryCount) rl with
    | (Except.ok j, rl2) => ⟨Except.ok j, 1, [], [body], rl2⟩
    | (Except.error Thrown.abortErr, rl2) =>
        ⟨Except.error (PCError.timeout "Request timed out"), 1, [], [body], rl2⟩
    | (Except.error (Thrown.pc e), rl2) => ⟨Except.error e, 1, [], [body], rl2⟩
    | (Except.error (Thrown.js m), rl2) =>
        match remaining with
        | Nat.succ rem =>
            let rest := makeRequestGo cfg tr body rem (retryCount + 1) rl2
            ⟨rest.result, rest.calls + 1, cfg.retryDelay * (retryCount + 1) :: rest.waits,
              body :: rest.sent, rest.rl⟩
        | 0 => ⟨Except.error (PCError.network ("Network error: " ++ m) m), 1, [], [body], rl2⟩

/-- A makeRequest call entered at the given retryCount (the public entry is
retryCount = 0). -/
def makeRequest (cfg : ClientConfig) (tr : Nat → Attempt) (body : Jx)
    (rl : RateLimitInfo) (retryCount : Nat) : ExecResult :=
  makeRequestGo cfg tr body (cfg.maxRetries - retryCount) retryCount rl

/-- The closed platform enum of src/types.ts SocialPlatformSchema. -/
inductive SocialPlatform where
  | reddit
  | tiktok
deriving DecidableEq

/-- Wire spelling of a platform value. -/
def SocialPlatform.wire : SocialPlatform → String
  | SocialPlatform.reddit => "reddit"
  | SocialPlatform.tiktok => "tiktok"

/-- The closed response-mode enum of src/types.ts ResponseModeSchema. -/
inductive ResponseMode where
  | raw
  | markdown
deriving DecidableEq

/-- Wire spelling of a response mode. -/
def ResponseMode.wire : ResponseMode → String
  | ResponseMode.raw => "raw"
  | ResponseMode.markdown => "markdown"

/-- One zod issue: the path to the offending field and the issue message. -/
structure Issue where
  path : List String
  message : String
deriving DecidableEq

/-- The detail mapping applied to each zod issue by the endpoint operations:
field is the dot-joined path, code is always invalid_value. -/
def zodDetail (i : Issue) : ErrorDetail :=
  { field := String.intercalate "." i.path, code := "invalid_value", message := i.message }

/-- The caller-side SearchRequest of src/types.ts.  The numeric fields are
modelled as integers (the int rule of the schema cannot fire on them). -/
structure SearchParams where
  socialPlatforms : List SocialPlatform
  query : String
  results : Int
  page : Int
deriving DecidableEq

/-- The issues SearchRequestSchema.parse collects, in schema key order.
Note that the min(1) check on query runs on the raw string, before the trim
transform. -/
def searchIssues (p : SearchParams) : List Issue :=
  (if p.socialPlatforms.length < 1 then
    [⟨["socialPlatforms"], "At least one social platform is required"⟩] else [])
  ++ (if p.query.length < 1 then [⟨["query"], "Query cannot be empty"⟩] else [])
  ++ (if p.results < 1 then
    [⟨["results"], "Number must be greater than or equal to 1"⟩] else [])
  ++ (if 100 < p.results then
    [⟨["results"], "Number must be less than or equal to 100"⟩] else [])
  ++ (if p.page < 1 then
    [⟨["page"], "Number must be greater than or equal to 1"⟩] else [])

/-- The parsed output of SearchRequestSchema on success: the trim transform
has been applied to the query. -/
def searchValidated (p : SearchParams) : SearchParams :=
  { p with query := jsTrim p.query }

/-- The snake_case wire body built by search from the validated request. -/
def searchWire (p : SearchParams) : Jx :=
  Jx.jobj
    [("social_platforms", Jx.jarr (p.socialPlatforms.map (fun sp => Jx.jstr sp.wire)))
    , ("query", Jx.jstr p.query)
    , ("results", Jx.jnum p.results)
    , ("page", Jx.jnum p.page)]

/-- src/client.ts search: validate, convert to wire format, call the request
executor; a validation failure raises ValidationError with the mapped details
before any transport invocation. -/
def search (cfg : ClientConfig) (p : SearchParams) (tr : Nat → Attempt)
    (rl : RateLimitInfo) : ExecResult :=
  match searchIssues p with
  | [] => makeRequest cfg tr (searchWire (searchValidated p)) rl 0
  | issues =>
      ⟨Except.error (PCError.validation (some "Invalid request parameters")
        (issues.map zodDetail) none), 0, [], [], rl⟩

/-- Split a character list at the first occurrence of the scheme
separator. -/
def findSchemeSep : List Char → Option (List Char × List Char)
  | ':' :: '/' :: '/' :: rest => some ([], rest)
  | c :: rest => (findSchemeSep rest).map (fun pr => (c :: pr.1, pr.2))
  | [] => none

/-- Models success of the WHATWG URL constructor behind zod .url(),
simplified to the shape relevant here: an ASCII-alpha-initial scheme of
scheme characters, the literal separator, and a non-empty remainder. -/
def isValidUrl (s : String) : Bool :=
  match findSchemeSep s.data with
  | some (scheme, rest) =>
      (match scheme.head? with
       | some c => c.isAlpha
       | none => false)
      && scheme.all (fun c => c.isAlpha || c.isDigit || c = '+' || c = '-' || c = '.')
      && !rest.isEmpty
  | none => false

/-- The caller-side ExtractRequest.  commentFilterConfig models an extra
property supplied by the caller (as the repository tests do); the schema of
src/types.ts has no such key, so parsing strips it. -/
structure ExtractParams where
  urls : List String
  includeComments : Option Bool
  responseMode : Option ResponseMode
  commentFilterConfig : Option Jx

/-- The issues ExtractRequestSchema.parse collects: array length bounds
first (as zod checks them before the elements), then one issue per invalid
URL element. -/
def extractIssues (p : ExtractParams) : List Issue :=
  (if p.urls.length < 1 then [⟨["urls"], "At least one URL is required"⟩] else [])
  ++ (if 100 < p.urls.length then
    [⟨["urls"], "Cannot process more than 100 URLs at once"⟩] else [])
  ++ (p.urls.enum.filterMap (fun iu =>
    if isValidUrl iu.2 then none else some ⟨["urls", toString iu.1], "Invalid url"⟩))

/-- The snake_case wire body built by extract from the validated request,
with the schema defaults applied; the unknown commentFilterConfig property
was stripped by the schema and does not appear. -/
def extractWire (p : ExtractParams) : Jx :=
  Jx.jobj
    [("urls", Jx.jarr (p.urls.map Jx.jstr))
    , ("include_comments", Jx.jbool (p.includeComments.getD false))
    , ("response_mode", Jx.jstr (p.responseMode.getD ResponseMode.raw).wire)]

/-- src/client.ts extract: validate, convert to wire format, call the
request executor. -/
def extract (cfg : ClientConfig) (p : ExtractParams) (tr : Nat → Attempt)
    (rl : RateLimitInfo) : ExecResult :=
  match extractIssues p with
  | [] => makeRequest cfg tr (extractWire p) rl 0
  | issues =>
      ⟨Except.error (PCError.validation (some "Invalid request parameters")
        (issues.map zodDetail) none), 0, [], [], rl⟩

/-- The caller-side SearchAndExtractRequest: the search fields plus the
optional extract fields (and, as for extract, a possible extra
commentFilterConfig property that the schema strips). -/
structure SneParams where
  socialPlatforms : List SocialPlatform
  query : String
  results : Int
  page : Int
  includeComments : Option Bool
  responseMode : Option ResponseMode
  commentFilterConfig : Option Jx

/-- The search-shaped part of a SearchAndExtractRequest. -/
def SneParams.searchPart (p : SneParams) : SearchParams :=
  ⟨p.socialPlatforms, p.query, p.results, p.page⟩

/-- The issues SearchAndExtractRequestSchema.parse collects (same rules and
order as the search schema; the optional fields cannot fail). -/
def sneIssues (p : SneParams) : List Issue :=
  searchIssues p.searchPart

/-- The snake_case wire body built by searchAndExtract from the validated
request. -/
def sneWire (p : SneParams) : Jx :=
  Jx.jobj
    [("social_platforms", Jx.jarr (p.socialPlatforms.map (fun sp => Jx.jstr sp.wire)))
    , ("query", Jx.jstr (jsTrim p.query))
    , ("results", Jx.jnum p.results)
    , ("page", Jx.jnum p.page)
    , ("include_comments", Jx.jbool (p.includeComments.getD false))
    , ("response_mode", Jx.jstr (p.responseMode.getD ResponseMode.raw).wire)]

/-- src/client.ts searchAndExtract: validate, convert to wire format, call
the request executor. -/
def searchAndExtract (cfg : ClientConfig) (p : SneParams) (tr : Nat → Attempt)
    (rl : RateLimitInfo) : ExecResult :=
  match sneIssues p with
  | [] => makeRequest cfg tr (sneWire p) rl 0
  | issues =>
      ⟨Except.error (PCError.validation (some "Invalid request parameters")
        (issues.map zodDetail) none), 0, [], [], rl⟩

/-- The legacy mapper of the first types.ts variant (mapSearchResult):
copies the four text fields and substitutes the empty string for a falsy or
absent imageUrl.  The canonical search does not invoke it. -/
def mapSearchResult (apiResult : Jx) : Jx :=
  Jx.jobj
    [("title", jField apiResult "title")
    , ("url", jField apiResult "url")
    , ("snippet", jField apiResult "snippet")
    , ("date", jField apiResult "date")
    , ("imageUrl", if jsTruthy (jField apiResult "imageUrl") then jField apiResult "imageUrl"
        else Jx.jstr "")]

/-- src/types.ts isRedditPost type guard on an arbitrary raw value. -/
def isRedditPost (raw : Jx) : Bool :=
  jsTruthy raw && typeofObject raw && !(isNullJx raw) && jsInOp "subredditName" raw

/-- src/types.ts isTiktokPost type guard on an arbitrary raw value. -/
def isTiktokPost (raw : Jx) : Bool :=
  jsTruthy raw && typeofObject raw && !(isNullJx raw) && jsInOp "username" raw
    && jsInOp "id" raw

/-- An empty header set. -/
def noHeaders : RespHeaders := ⟨none, none, none, none⟩

/-- A 200 response carrying the given JSON array body and no headers. -/
def okArrayResp (xs : List Jx) : HttpResponse :=
  ⟨200, noHeaders, some (Jx.jarr xs), ""⟩

/-- A transport whose every attempt behaves the same way. -/
def constTr (a : Attempt) : Nat → Attempt := fun _ => a

/-- A client configuration with the defaults and maxRetries 3. -/
def cfgW1 : ClientConfig := ⟨"sk_test", DEFAULT_BASE_URL, 90000, 3, 1000⟩

/-- A 401 response with a JSON error body. -/
def respW1 : HttpResponse :=
  ⟨401, noHeaders,
    some (Jx.jobj [("error", Jx.jstr "invalid_api_key"),
      ("message", Jx.jstr "Invalid API key provided"), ("requestId", Jx.jstr "req_123")]), ""⟩

/-- A transport that always yields the 401 response after 5 ms. -/
def trW1 : Nat → Attempt := constTr ⟨5, FetchOutcome.resp respW1⟩

/-- A client configuration with maxRetries 2, as in the spec example. -/
def cfgW2 : ClientConfig := ⟨"sk_test", DEFAULT_BASE_URL, 90000, 2, 1000⟩

/-- A transport that fails at the transport level on every attempt. -/
def trFail : Nat → Attempt := constTr ⟨0, FetchOutcome.throwErr "ECONNRESET"⟩

/-- A 429 response carrying Retry-After 60 and a JSON error body. -/
def respW429 : HttpResponse :=
  ⟨429, ⟨none, none, none, some "60"⟩,
    some (Jx.jobj [("error", Jx.jstr "rate_limit_exceeded"),
      ("message", Jx.jstr "Too many requests"), ("requestId", Jx.jstr "req_456")]), ""⟩

/-- A transport that always yields the 429 response after 5 ms. -/
def trW429 : Nat → Attempt := constTr ⟨5, FetchOutcome.resp respW429⟩

/-- Constructor options with an explicit timeout of zero. -/
def opts5 : PostCrawlClientOptions := ⟨"sk_test", none, some 0, none, none⟩

/-- The configuration the constructor produces from opts5: the zero timeout
was coalesced to the 90000 ms default. -/
def cfg5 : ClientConfig := ⟨"sk_test", DEFAULT_BASE_URL, 90000, 3, 1000⟩

/-- A transport whose exchange takes exactly the default timeout. -/
def trSlow : Nat → Attempt := constTr ⟨90000, FetchOutcome.resp (okArrayResp [])⟩

/-- A search input whose query is a single space. -/
def pWs : SearchParams := ⟨[SocialPlatform.reddit], " ", 10, 1⟩

/-- A transport answering 200 with an empty JSON array after 5 ms. -/
def trOk : Nat → Attempt := constTr ⟨5, FetchOutcome.resp (okArrayResp [])⟩

/-- First search response element, all five fields present. -/
def e1R : Jx :=
  Jx.jobj [("title", Jx.jstr "Understanding Machine Learning Basics"),
    ("url", Jx.jstr "https://www.reddit.com/r/MachineLearning/comments/abc123/"),
    ("snippet", Jx.jstr "A comprehensive guide to machine learning fundamentals"),
    ("date", Jx.jstr "Dec 28, 2024"),
    ("imageUrl", Jx.jstr "https://preview.redd.it/ml-basics.jpg")]

/-- Second search response element, with no imageUrl field. -/
def e2R : Jx :=
  Jx.jobj [("title", Jx.jstr "AI Revolution in 2024"),
    ("url", Jx.jstr "https://www.reddit.com/r/artificial/comments/def456/"),
    ("snippet", Jx.jstr "The rapid advancement of AI technology in 2024"),
    ("date", Jx.jstr "Dec 27, 2024")]

/-- Constructor options with credential sk_abc and all defaults. -/
def opts7 : PostCrawlClientOptions := ⟨"sk_abc", none, none, none, none⟩

/-- The configuration the constructor produces from opts7. -/
def cfg7 : ClientConfig := ⟨"sk_abc", DEFAULT_BASE_URL, 90000, 3, 1000⟩

/-- A well-formed search input. -/
def p7 : SearchParams := ⟨[SocialPlatform.reddit], "machine learning", 10, 1⟩

/-- A transport answering 200 with the two-element array after 5 ms. -/
def tr7 : Nat → Attempt := constTr ⟨5, FetchOutcome.resp (okArrayResp [e1R, e2R])⟩

/-- The extract input of the comment-filter test: one valid URL plus a
commentFilterConfig object. -/
def p8 : ExtractParams :=
  ⟨["https://reddit.com/r/test"], some true, some ResponseMode.raw,
    some (Jx.jobj [("min_score", Jx.jnum 10), ("max_depth", Jx.jnum 2)])⟩

/-- The searchAndExtract input of the comment-filter test. -/
def w8 : SneParams :=
  ⟨[SocialPlatform.reddit], "test", 10, 1, some true, some ResponseMode.raw,
    some (Jx.jobj [("tier_limits", Jx.jobj [("0", Jx.jnum 5)]),
      ("preserve_high_quality_threads", Jx.jbool false)])⟩

/-- Constructor options with explicit zero maxRetries and retryDelay. -/
def o10 : PostCrawlClientOptions := ⟨"sk_k", none, none, some 0, some 0⟩

/-- The configuration the constructor produces from o10: both zeros were
coalesced to the defaults. -/
def cfg10 : ClientConfig := ⟨"sk_k", DEFAULT_BASE_URL, 90000, 3, 1000⟩

section Theorems

/-- The retry loop under a transport that fails (plain throw, within the
timeout) on every attempt inside the budget: one transport call per
attempt, linear backoff from the current retryCount, the same body each
time, the rate-limit state untouched, and finally a NetworkError wrapping
the last cause. -/
theorem makeRequestGo_allFail (cfg : ClientConfig) (tr : Nat → Attempt)
    (m : Nat → String) (body : Jx) :
    ∀ remaining retryCount rl,
    (∀ i, retryCount ≤ i → i ≤ retryCount + remaining →
      (tr i).elapsed < cfg.timeout ∧ (tr i).outcome = FetchOutcome.throwErr (m i)) →
    makeRequestGo cfg tr body remaining retryCount rl =
      ⟨Except.error (PCError.network ("Network error: " ++ m (retryCount + remaining))
          (m (retryCount + remaining))),
        remaining + 1,
        (List.range' (retryCount + 1) remaining).map (fun k => cfg.retryDelay * k),
        List.replicate (remaining + 1) body, rl⟩ := by
  intro remaining
  induction remaining with
  | zero =>
      intro retryCount rl hfail
      obtain ⟨he, hm⟩ := hfail retryCount (Nat.le_refl _) (Nat.le_add_right _ _)
      simp only [makeRequestGo]
      simp [attemptResult, Nat.not_le.mpr he, hm]
  | succ rem ih =>
      intro retryCount rl hfail
      obtain ⟨he, hm⟩ := hfail retryCount (Nat.le_refl _) (Nat.le_add_right _ _)
      have hrec := ih (retryCount + 1) rl (fun i h1 h2 => hfail i (by omega) (by omega))
      conv_lhs => rw [makeRequestGo]
      simp only [attemptResult, Nat.not_le.mpr he, if_false, hm]
      rw [hrec]
      have h3 : retryCount + 1 + rem = retryCount + (rem + 1) := by omega
      simp [h3, List.range'_succ, List.replicate_succ]

/-- One retry step: a transport-level throw within the timeout and with
retry budget left recurs with the next attempt, adding one call, the
linear-backoff wait and one more copy of the body. -/
theorem makeRequestGo_throw_succ (cfg : ClientConfig) (tr : Nat → Attempt) (body : Jx)
    (rem retryCount : Nat) (rl : RateLimitInfo) (m : String)
    (he : (tr retryCount).elapsed < cfg.timeout)
    (hm : (tr retryCount).outcome = FetchOutcome.throwErr m) :
    makeRequestGo cfg tr body (rem + 1) retryCount rl =
      (let rest := makeRequestGo cfg tr body rem (retryCount + 1) rl
       ⟨rest.result, rest.calls + 1, cfg.retryDelay * (retryCount + 1) :: rest.waits,
        body :: rest.sent, rest.rl⟩) := by
  conv_lhs => rw [makeRequestGo]
  simp [attemptResult, Nat.not_le.mpr he, hm]

/-- C1: a non-2xx response completed within the timeout is classified by
handleErrorResponse solely by its status code per the table (401
AuthenticationError, 403 InsufficientCreditsError, 422 ValidationError with
the field-level details of the body, 429 RateLimitError carrying the
integer parsed from the Retry-After header, any other non-2xx a generic
APIError carrying the status code), the typed error is rethrown by
makeRequest, and the transport is invoked exactly once: a classified HTTP
error is never retried, whatever maxRetries is. -/
theorem c1_http_error_classified_once (cfg : ClientConfig) (tr : Nat → Attempt)
    (body : Jx) (rl : RateLimitInfo) (r : HttpResponse)
    (he : (tr 0).elapsed < cfg.timeout)
    (hr : (tr 0).outcome = FetchOutcome.resp r)
    (hbad : responseOk r.status = false) :
    makeRequest cfg tr body rl 0 =
      ⟨Except.error (handleErrorResponse r), 1, [], [body],
        updateRateLimitInfo rl r.headers⟩ ∧
    (r.status = 401 → (handleErrorResponse r).isAuthentication = true) ∧
    (r.status = 403 → (handleErrorResponse r).isInsufficientCredits = true) ∧
    (r.status = 422 → handleErrorResponse r =
      PCError.validation (decodeErrorResponse r).message
        ((decodeErrorResponse r).details.getD []) (decodeErrorResponse r).requestId) ∧
    (r.status = 429 → (handleErrorResponse r).isRateLimit = true) ∧
    (∀ s, r.status = 429 → r.headers.retryAfter = some s → s ≠ "" →
      (handleErrorResponse r).retryAfterOf = some (jsParseInt s)) ∧
    (r.status ≠ 401 → r.status ≠ 403 → r.status ≠ 422 → r.status ≠ 429 →
      handleErrorResponse r =
        PCError.api (decodeErrorResponse r).message r.status (decodeErrorResponse r).requestId) := by
  refine ⟨?_, ?_, ?_, ?_, ?_, ?_, ?_⟩
  · simp only [makeRequest]
    conv_lhs => rw [makeRequestGo]
    simp [attemptResult, Nat.not_le.mpr he, hr, hbad]
  · intro h; simp [handleErrorResponse, h, PCError.isAuthentication]
  · intro h; simp [handleErrorResponse, h, PCError.isInsufficientCredits]
  · intro h; simp [handleErrorResponse, h]
  · intro h; simp [handleErrorResponse, h, PCError.isRateLimit]
  · intro s h hra hne; simp [handleErrorResponse, h, hra, hne, PCError.retryAfterOf]
  · intro h1 h2 h3 h4; simp [handleErrorResponse, h1, h2, h3, h4]

/-- Witness for C1 at a concrete 429 exchange with Retry-After 60: a client
with three retries available rejects after exactly one transport invocation
with a RateLimitError carrying retryAfter 60; also checked at 401: the
classified error is an AuthenticationError. -/
theorem c1_witness :
    makeRequest cfgW1 trW429 (Jx.jstr "b") RateLimitInfo.initial 0 =
      ⟨Except.error (handleErrorResponse respW429), 1, [], [Jx.jstr "b"],
        updateRateLimitInfo RateLimitInfo.initial respW429.headers⟩ ∧
    (handleErrorResponse respW429).isRateLimit = true ∧
    (handleErrorResponse respW429).retryAfterOf = some (jsParseInt "60") ∧
    jsParseInt "60" = JsNum.val 60 ∧
    (handleErrorResponse respW1).isAuthentication = true := by
  have h := c1_http_error_classified_once cfgW1 trW429 (Jx.jstr "b") RateLimitInfo.initial
    respW429 (by decide) rfl (by decide)
  have h1 := c1_http_error_classified_once cfgW1 trW1 (Jx.jstr "b") RateLimitInfo.initial
    respW1 (by decide) rfl (by decide)
  exact ⟨h.1, h.2.2.2.2.1 rfl, h.2.2.2.2.2.1 "60" rfl rfl (by decide), by decide,
    h1.2.1 rfl⟩

/-- C2: for a client configured with maxRetries = n and a transport that
fails at the transport level (a thrown error, not an HTTP error status,
within the timeout) on every attempt, makeRequest invokes the transport
exactly n + 1 times, waits retryDelay * k before the k-th retry (linear
backoff), re-sends the identical body on every invocation, and finally
rejects with a NetworkError carrying the underlying cause. -/
theorem c2_retry_exhaustion_network_error (cfg : ClientConfig) (tr : Nat → Attempt)
    (m : Nat → String) (body : Jx) (rl : RateLimitInfo)
    (hfail : ∀ i, i ≤ cfg.maxRetries →
      (tr i).elapsed < cfg.timeout ∧ (tr i).outcome = FetchOutcome.throwErr (m i)) :
    makeRequest cfg tr body rl 0 =
      ⟨Except.error (PCError.network ("Network error: " ++ m cfg.maxRetries) (m cfg.maxRetries)),
        cfg.maxRetries + 1,
        (List.range' 1 cfg.maxRetries).map (fun k => cfg.retryDelay * k),
        List.replicate (cfg.maxRetries + 1) body, rl⟩ := by
  have h := makeRequestGo_allFail cfg tr m body cfg.maxRetries 0 rl
    (fun i h1 h2 => hfail i (by omega))
  simpa [makeRequest] using h

/-- Witness for C2 with maxRetries = 2: three transport invocations, waits
of 1000 and 2000 ms, the body sent three times, terminal NetworkError. -/
theorem c2_witness :
    makeRequest cfgW2 trFail (Jx.jstr "payload") RateLimitInfo.initial 0 =
      ⟨Except.error (PCError.network ("Network error: " ++ "ECONNRESET") "ECONNRESET"),
        3, [1000 * 1, 1000 * 2],
        [Jx.jstr "payload", Jx.jstr "payload", Jx.jstr "payload"], RateLimitInfo.initial⟩ :=
  c2_retry_exhaustion_network_error cfgW2 trFail (fun _ => "ECONNRESET") (Jx.jstr "payload")
    RateLimitInfo.initial (fun i _ => ⟨(by decide : (0 : Nat) < 90000), rfl⟩)

/-- C3: an input violating any validation rule makes the operation reject
with a ValidationError carrying one (field, code, message) triple per
collected violation — all violations, in schema order — and the transport
is never invoked: the failure precedes request construction, for each of
search, extract and searchAndExtract. -/
theorem c3_validation_before_transport (cfg : ClientConfig) (tr : Nat → Attempt)
    (rl : RateLimitInfo) (p : SearchParams) (q : ExtractParams) (w : SneParams)
    (hp : searchIssues p ≠ []) (hq : extractIssues q ≠ []) (hw : sneIssues w ≠ []) :
    search cfg p tr rl =
      ⟨Except.error (PCError.validation (some "Invalid request parameters")
        ((searchIssues p).map zodDetail) none), 0, [], [], rl⟩ ∧
    extract cfg q tr rl =
      ⟨Except.error (PCError.validation (some "Invalid request parameters")
        ((extractIssues q).map zodDetail) none), 0, [], [], rl⟩ ∧
    searchAndExtract cfg w tr rl =
      ⟨Except.error (PCError.validation (some "Invalid request parameters")
        ((sneIssues w).map zodDetail) none), 0, [], [], rl⟩ ∧
    ((searchIssues p).map zodDetail).length = (searchIssues p).length ∧
    ((extractIssues q).map zodDetail).length = (extractIssues q).length := by
  refine ⟨?_, ?_, ?_, by simp, by simp⟩
  · cases hi : searchIssues p with
    | nil => exact absurd hi hp
    | cons a as => simp [search, hi]
  · cases hi : extractIssues q with
    | nil => exact absurd hi hq
    | cons a as => simp [extract, hi]
  · cases hi : sneIssues w with
    | nil => exact absurd hi hw
    | cons a as => simp [searchAndExtract, hi]

/-- Witness for C3: a search input with four violations, an extract input
with an empty URL list, and a combined input with three violations all
reject locally with the mapped detail lists and zero transport calls. -/
theorem c3_witness :
    search cfgW1 ⟨[], "", 0, 0⟩ trW1 RateLimitInfo.initial =
      ⟨Except.error (PCError.validation (some "Invalid request parameters")
        ((searchIssues ⟨[], "", 0, 0⟩).map zodDetail) none), 0, [], [],
        RateLimitInfo.initial⟩ ∧
    extract cfgW1 ⟨[], none, none, none⟩ trW1 RateLimitInfo.initial =
      ⟨Except.error (PCError.validation (some "Invalid request parameters")
        ((extractIssues ⟨[], none, none, none⟩).map zodDetail) none), 0, [], [],
        RateLimitInfo.initial⟩ ∧
    searchAndExtract cfgW1 ⟨[], "x", 101, 0, none, none, none⟩ trW1 RateLimitInfo.initial =
      ⟨Except.error (PCError.validation (some "Invalid request parameters")
        ((sneIssues ⟨[], "x", 101, 0, none, none, none⟩).map zodDetail) none), 0, [], [],
        RateLimitInfo.initial⟩ ∧
    ((searchIssues ⟨[], "", 0, 0⟩).map zodDetail).length = (searchIssues ⟨[], "", 0, 0⟩).length ∧
    ((extractIssues ⟨[], none, none, none⟩).map zodDetail).length =
      (extractIssues ⟨[], none, none, none⟩).length :=
  c3_validation_before_transport cfgW1 trW1 RateLimitInfo.initial
    ⟨[], "", 0, 0⟩ ⟨[], none, none, none⟩ ⟨[], "x", 101, 0, none, none, none⟩
    (by decide) (by decide) (by decide)

/-- Preservation of a non-null field under one rate-limit update. -/
theorem updateField_ne_none (cur : Option JsNum) (h : Option String)
    (hc : cur ≠ none) : updateField cur h ≠ none := by
  cases h with
  | none => simpa [updateField] using hc
  | some s =>
      by_cases hs : s = ""
      · simpa [updateField, hs] using hc
      · simp [updateField, hs]

/-- C4: the RateLimitInfo invariant.  After a completed exchange each field
equals the integer parsed from its header when that header is present with
a value, and is left unchanged when the header is absent; a field that is
non-null stays non-null under any further sequence of updates; the state
after a single completed exchange (success or classified error) in
makeRequest is exactly the header update, and a transport-level failure
does not touch the state. -/
theorem c4_rate_limit_invariant :
    (∀ rl hs s, hs.rlLimit = some s → s ≠ "" →
      (updateRateLimitInfo rl hs).limit = some (jsParseInt s)) ∧
    (∀ rl hs s, hs.rlRemaining = some s → s ≠ "" →
      (updateRateLimitInfo rl hs).remaining = some (jsParseInt s)) ∧
    (∀ rl hs s, hs.rlReset = some s → s ≠ "" →
      (updateRateLimitInfo rl hs).reset = some (jsParseInt s)) ∧
    (∀ rl hs, hs.rlLimit = none → (updateRateLimitInfo rl hs).limit = rl.limit) ∧
    (∀ rl hs, hs.rlRemaining = none → (updateRateLimitInfo rl hs).remaining = rl.remaining) ∧
    (∀ rl hs, hs.rlReset = none → (updateRateLimitInfo rl hs).reset = rl.reset) ∧
    (∀ rl (hss : List RespHeaders),
      (rl.limit ≠ none → (hss.foldl updateRateLimitInfo rl).limit ≠ none) ∧
      (rl.remaining ≠ none → (hss.foldl updateRateLimitInfo rl).remaining ≠ none) ∧
      (rl.reset ≠ none → (hss.foldl updateRateLimitInfo rl).reset ≠ none)) ∧
    (∀ cfg tr body rl r, (tr 0).elapsed < cfg.timeout →
      (tr 0).outcome = FetchOutcome.resp r →
      (responseOk r.status = false ∨ ∃ j, r.body = some j) →
      (makeRequest cfg tr body rl 0).rl = updateRateLimitInfo rl r.headers) ∧
    (∀ cfg tr body rl m, cfg.maxRetries = 0 → (tr 0).elapsed < cfg.timeout →
      (tr 0).outcome = FetchOutcome.throwErr m →
      (makeRequest cfg tr body rl 0).rl = rl) := by
  refine ⟨?_, ?_, ?_, ?_, ?_, ?_, ?_, ?_, ?_⟩
  · intro rl hs s h hne; simp [updateRateLimitInfo, updateField, h, hne]
  · intro rl hs s h hne; simp [updateRateLimitInfo, updateField, h, hne]
  · intro rl hs s h hne; simp [updateRateLimitInfo, updateField, h, hne]
  · intro rl hs h; simp [updateRateLimitInfo, updateField, h]
  · intro rl hs h; simp [updateRateLimitInfo, updateField, h]
  · intro rl hs h; simp [updateRateLimitInfo, updateField, h]
  · intro rl hss
    induction hss generalizing rl with
    | nil => simp
    | cons hs hss ih =>
        refine ⟨fun h1 => ?_, fun h2 => ?_, fun h3 => ?_⟩
        · exact (ih (updateRateLimitInfo rl hs)).1 (updateField_ne_none _ _ h1)
        · exact (ih (updateRateLimitInfo rl hs)).2.1 (updateField_ne_none _ _ h2)
        · exact (ih (updateRateLimitInfo rl hs)).2.2 (updateField_ne_none _ _ h3)
  · intro cfg tr body rl r he hr hcase
    simp only [makeRequest]
    conv_lhs => rw [makeRequestGo]
    rcases hcase with hbad | ⟨j, hj⟩
    · simp [attemptResult, Nat.not_le.mpr he, hr, hbad]
    · by_cases hok : responseOk r.status
      · simp [attemptResult, Nat.not_le.mpr he, hr, hok, hj]
      · simp [attemptResult, Nat.not_le.mpr he, hr, hok]
  · intro cfg tr body rl m h0 he hm
    simp only [makeRequest]
    conv_lhs => rw [makeRequestGo]
    simp [attemptResult, Nat.not_le.mpr he, hm, h0]

/-- Witness for C4 at the spec example: a completed exchange carrying
X-RateLimit-Remaining 150 sets remaining to 150, leaves the absent limit
field unchanged, and a previously non-null limit survives an update. -/
theorem c4_witness :
    (updateRateLimitInfo ⟨some (JsNum.val 200), none, none⟩ ⟨none, some "150", none, none⟩).remaining
      = some (jsParseInt "150") ∧
    (updateRateLimitInfo ⟨some (JsNum.val 200), none, none⟩ ⟨none, some "150", none, none⟩).limit
      = some (JsNum.val 200) ∧
    ([(⟨none, some "150", none, none⟩ : RespHeaders)].foldl updateRateLimitInfo
      ⟨some (JsNum.val 200), none, none⟩).limit ≠ none ∧
    (makeRequest cfgW1 trW1 (Jx.jstr "b") ⟨some (JsNum.val 200), none, none⟩ 0).rl
      = updateRateLimitInfo ⟨some (JsNum.val 200), none, none⟩ respW1.headers := by
  obtain ⟨h1, h2, h3, h4, h5, h6, h7, h8, h9⟩ := c4_rate_limit_invariant
  refine ⟨h2 _ _ "150" rfl (by decide), ?_, ?_, ?_⟩
  · exact h4 ⟨some (JsNum.val 200), none, none⟩ ⟨none, some "150", none, none⟩ rfl
  · exact (h7 ⟨some (JsNum.val 200), none, none⟩ [⟨none, some "150", none, none⟩]).1 (by decide)
  · exact h8 cfgW1 trW1 (Jx.jstr "b") ⟨some (JsNum.val 200), none, none⟩ respW1
      (by decide) rfl (Or.inl (by decide))

/-- C5 counterexample: a client constructed with an explicit timeout of 0
does not escape the timeout abort.  The constructor coalesces the falsy 0
to the 90000 ms default, the abort timer is armed for that duration on
every request, and an exchange reaching it is aborted with TimeoutError. -/
theorem c5_counterexample :
    mkClientConfig opts5 = Except.ok cfg5 ∧
    opts5.timeout = some 0 ∧
    (makeRequest cfg5 trSlow (Jx.jstr "b") RateLimitInfo.initial 0).result =
      Except.error (PCError.timeout "Request timed out") ∧
    (makeRequest cfg5 trSlow (Jx.jstr "b") RateLimitInfo.initial 0).calls = 1 :=
  ⟨rfl, rfl, rfl, rfl⟩

/-- C5 (amended): an explicit timeout of 0 is coalesced by the constructor
to the 90000 ms default, every request arms an abort timer for the
effective timeout, and an exchange whose duration reaches it rejects with
TimeoutError after a single transport invocation (timeouts are never
retried); no option value disables the timeout for a slower exchange. -/
theorem c5_amended :
    (∀ o cfg, o.timeout = some 0 → mkClientConfig o = Except.ok cfg →
      cfg.timeout = DEFAULT_TIMEOUT) ∧
    (∀ cfg tr body rl k, cfg.timeout ≤ (tr k).elapsed →
      makeRequest cfg tr body rl k =
        ⟨Except.error (PCError.timeout "Request timed out"), 1, [], [body], rl⟩) := by
  constructor
  · intro o cfg h0 hok
    unfold mkClientConfig at hok
    split_ifs at hok
    · injection hok with h
      subst h
      simp [jsOrNat, h0]
  · intro cfg tr body rl k hle
    simp only [makeRequest]
    conv_lhs => rw [makeRequestGo]
    simp [attemptResult, hle]

/-- Witness for C5 (amended) at the zero-timeout options and the slow
exchange. -/
theorem c5_amended_witness :
    cfg5.timeout = DEFAULT_TIMEOUT ∧
    makeRequest cfg5 trSlow (Jx.jstr "b") RateLimitInfo.initial 0 =
      ⟨Except.error (PCError.timeout "Request timed out"), 1, [], [Jx.jstr "b"],
        RateLimitInfo.initial⟩ :=
  ⟨c5_amended.1 opts5 cfg5 rfl rfl,
    c5_amended.2 cfg5 trSlow (Jx.jstr "b") RateLimitInfo.initial 0 (by decide)⟩

/-- C6 counterexample: a query consisting of one space is accepted, not
rejected: validation produces no issues (the min-length check runs before
the trim), the transport is invoked, and the wire body carries the trimmed,
now empty, query. -/
theorem c6_counterexample :
    searchIssues pWs = [] ∧
    search cfgW1 pWs trOk RateLimitInfo.initial =
      ⟨Except.ok (Jx.jarr []), 1, [],
        [Jx.jobj [("social_platforms", Jx.jarr [Jx.jstr "reddit"]), ("query", Jx.jstr ""),
          ("results", Jx.jnum 10), ("page", Jx.jnum 1)]],
        RateLimitInfo.initial⟩ :=
  ⟨rfl, rfl⟩

/-- Membership in a conditional singleton list yields the condition and the
equality. -/
theorem mem_if_singleton {c : Prop} [Decidable c] {a x : Issue}
    (h : x ∈ (if c then [a] else [])) : c ∧ x = a := by
  split at h
  · next hc => simpa using ⟨hc, by simpa using h⟩
  · simp at h

/-- C6 (amended): the query is validated for non-emptiness on the raw
string, before trimming: an input whose raw query is non-empty has no
query violation, and the accepted request carries the trimmed query on the
wire — so a whitespace-only query is accepted and sent as the empty
string. -/
theorem c6_amended (p : SearchParams) (hq : p.query ≠ "") :
    (∀ i ∈ searchIssues p, i.path ≠ ["query"]) ∧
    jField (searchWire (searchValidated p)) "query" = Jx.jstr (jsTrim p.query) := by
  constructor
  · intro i hi
    have hlen : ¬ (p.query.length < 1) := by
      have hne : p.query.length ≠ 0 := by
        intro h0
        apply hq
        cases hqq : p.query with
        | mk data =>
            rw [hqq] at h0
            have hdata : data = [] := List.length_eq_zero.mp (by simpa [String.length] using h0)
            subst hdata
            rfl
      omega
    unfold searchIssues at hi
    rcases List.mem_append.1 hi with h | h
    rotate_left
    · have := (mem_if_singleton h).2
      subst this
      simp
    rcases List.mem_append.1 h with h | h
    rotate_left
    · have := (mem_if_singleton h).2
      subst this
      simp
    rcases List.mem_append.1 h with h | h
    rotate_left
    · have := (mem_if_singleton h).2
      subst this
      simp
    rcases List.mem_append.1 h with h | h
    · have := (mem_if_singleton h).2
      subst this
      simp
    · exact absurd (mem_if_singleton h).1 hlen
  · rfl

/-- Witness for C6 (amended) at the single-space query. -/
theorem c6_amended_witness :
    pWs.query ≠ "" ∧
    jField (searchWire (searchValidated pWs)) "query" = Jx.jstr (jsTrim pWs.query) :=
  ⟨by decide, (c6_amended pWs (by decide)).2⟩

/-- C7 counterexample: for the client constructed with credential sk_abc
and default options, a 200 search response that is a two-element array
resolves with the two elements returned verbatim after one transport call;
the element lacking imageUrl keeps the field absent (undefined), not the
empty string the claim requires. -/
theorem c7_counterexample :
    mkClientConfig opts7 = Except.ok cfg7 ∧
    (search cfg7 p7 tr7 RateLimitInfo.initial).result = Except.ok (Jx.jarr [e1R, e2R]) ∧
    (search cfg7 p7 tr7 RateLimitInfo.initial).calls = 1 ∧
    jField e1R "imageUrl" = Jx.jstr "https://preview.redd.it/ml-basics.jpg" ∧
    jField e2R "imageUrl" = Jx.jundef ∧
    ¬ jField e2R "imageUrl" = Jx.jstr "" :=
  ⟨rfl, rfl, rfl, rfl, rfl, fun h => Jx.noConfusion h⟩

/-- C7 (amended): a 2xx search response array is resolved verbatim — the
result is the parsed response array unchanged, each element with exactly
the fields the server sent, so an absent imageUrl stays absent.  The
empty-string defaulting exists only in the legacy mapSearchResult helper,
which this search does not invoke. -/
theorem c7_amended (cfg : ClientConfig) (p : SearchParams) (tr : Nat → Attempt)
    (rl : RateLimitInfo) (r : HttpResponse) (xs : List Jx)
    (hv : searchIssues p = []) (he : (tr 0).elapsed < cfg.timeout)
    (hr : (tr 0).outcome = FetchOutcome.resp r) (hok : responseOk r.status = true)
    (hb : r.body = some (Jx.jarr xs)) :
    search cfg p tr rl =
      ⟨Except.ok (Jx.jarr xs), 1, [], [searchWire (searchValidated p)],
        updateRateLimitInfo rl r.headers⟩ ∧
    (∀ x, jsTruthy (jField x "imageUrl") = false →
      jField (mapSearchResult x) "imageUrl" = Jx.jstr "") := by
  constructor
  · simp only [search, hv]
    simp only [makeRequest]
    conv_lhs => rw [makeRequestGo]
    simp [attemptResult, Nat.not_le.mpr he, hr, hok, hb]
  · intro x hx
    simp only [mapSearchResult]
    rw [hx]
    rfl

/-- Witness for C7 (amended) at the concrete two-element exchange. -/
theorem c7_amended_witness :
    search cfg7 p7 tr7 RateLimitInfo.initial =
      ⟨Except.ok (Jx.jarr [e1R, e2R]), 1, [], [searchWire (searchValidated p7)],
        updateRateLimitInfo RateLimitInfo.initial (okArrayResp [e1R, e2R]).headers⟩ ∧
    jField (mapSearchResult e2R) "imageUrl" = Jx.jstr "" := by
  have h := c7_amended cfg7 p7 tr7 RateLimitInfo.initial (okArrayResp [e1R, e2R])
    [e1R, e2R] rfl (by decide) rfl (by decide) rfl
  exact ⟨h.1, h.2 e2R rfl⟩

/-- C8, code behavior at the failing inputs of tests/comment-filter.test.ts:
extract and searchAndExtract called with a commentFilterConfig object send
a wire body with no comment_filter_config key at all — the schema strips
the unknown property and the wire conversion never adds it — contradicting
the tests, which expect the object passed through verbatim under that
key. -/
theorem c8_comment_filter_config_dropped :
    (extract cfgW1 p8 trOk RateLimitInfo.initial).sent = [extractWire p8] ∧
    (extract cfgW1 p8 trOk RateLimitInfo.initial).calls = 1 ∧
    extractWire p8 = Jx.jobj [("urls", Jx.jarr [Jx.jstr "https://reddit.com/r/test"]),
      ("include_comments", Jx.jbool true), ("response_mode", Jx.jstr "raw")] ∧
    jsInOp "comment_filter_config" (extractWire p8) = false ∧
    (searchAndExtract cfgW1 w8 trOk RateLimitInfo.initial).sent = [sneWire w8] ∧
    jsInOp "comment_filter_config" (sneWire w8) = false :=
  ⟨rfl, rfl, rfl, rfl, rfl, rfl⟩

/-- C9: both raw-payload type guards are total functions matching their
claimed characterization exactly: isRedditPost holds precisely on non-null
objects carrying the subredditName field, isTiktokPost precisely on
non-null objects carrying both username and id, and both are false on
null, undefined, booleans, numbers and strings (and on arrays, which
cannot carry the probed keys). -/
theorem c9_type_guards_total :
    (∀ v, isRedditPost v = true ↔
      ∃ fs, v = Jx.jobj fs ∧ fs.any (fun f => f.1 == "subredditName") = true) ∧
    (∀ v, isTiktokPost v = true ↔
      ∃ fs, v = Jx.jobj fs ∧ fs.any (fun f => f.1 == "username") = true ∧
        fs.any (fun f => f.1 == "id") = true) ∧
    isRedditPost Jx.jnull = false ∧ isRedditPost Jx.jundef = false ∧
    isTiktokPost Jx.jnull = false ∧ isTiktokPost Jx.jundef = false ∧
    (∀ b, isRedditPost (Jx.jbool b) = false ∧ isTiktokPost (Jx.jbool b) = false) ∧
    (∀ n, isRedditPost (Jx.jnum n) = false ∧ isTiktokPost (Jx.jnum n) = false) ∧
    (∀ s, isRedditPost (Jx.jstr s) = false ∧ isTiktokPost (Jx.jstr s) = false) ∧
    (∀ xs, isRedditPost (Jx.jarr xs) = false ∧ isTiktokPost (Jx.jarr xs) = false) := by
  refine ⟨?_, ?_, rfl, rfl, rfl, rfl, ?_, ?_, ?_, ?_⟩
  · intro v
    cases v <;> simp [isRedditPost, jsTruthy, typeofObject, isNullJx, jsInOp]
  · intro v
    cases v <;> simp [isTiktokPost, jsTruthy, typeofObject, isNullJx, jsInOp]
  · intro b; cases b <;> exact ⟨rfl, rfl⟩
  · intro n; exact ⟨by simp [isRedditPost, jsInOp], by simp [isTiktokPost, jsInOp]⟩
  · intro s; exact ⟨by simp [isRedditPost, jsInOp], by simp [isTiktokPost, jsInOp]⟩
  · intro xs; exact ⟨by simp [isRedditPost, jsInOp], by simp [isTiktokPost, jsInOp]⟩

/-- Every makeRequest run invokes the transport at least once. -/
theorem makeRequestGo_calls_pos (cfg : ClientConfig) (tr : Nat → Attempt) (body : Jx) :
    ∀ remaining retryCount rl, 1 ≤ (makeRequestGo cfg tr body remaining retryCount rl).calls := by
  intro remaining retryCount rl
  unfold makeRequestGo
  split <;> try simp
  split <;> simp

/-- C10: the constructor coalesces falsy numeric options with ||, so an
explicit maxRetries of 0 yields the default 3 and an explicit retryDelay
of 0 yields the default 1000; every constructed client has non-zero
maxRetries and retryDelay, and a transport-level failure is therefore
always retried at least once — zero retries cannot be configured through
the public options. -/
theorem c10_zero_options_coalesce (o : PostCrawlClientOptions) (cfg : ClientConfig)
    (hok : mkClientConfig o = Except.ok cfg) :
    (o.maxRetries = some 0 → cfg.maxRetries = DEFAULT_MAX_RETRIES) ∧
    (o.retryDelay = some 0 → cfg.retryDelay = DEFAULT_RETRY_DELAY) ∧
    cfg.maxRetries ≠ 0 ∧ cfg.retryDelay ≠ 0 ∧
    (∀ tr body rl m, (tr 0).elapsed < cfg.timeout →
      (tr 0).outcome = FetchOutcome.throwErr m →
      2 ≤ (makeRequest cfg tr body rl 0).calls) := by
  have hfields : cfg.maxRetries = jsOrNat o.maxRetries DEFAULT_MAX_RETRIES ∧
      cfg.retryDelay = jsOrNat o.retryDelay DEFAULT_RETRY_DELAY := by
    unfold mkClientConfig at hok
    split_ifs at hok
    injection hok with h
    subst h
    exact ⟨rfl, rfl⟩
  obtain ⟨hmr, hrd⟩ := hfields
  have hmr0 : cfg.maxRetries ≠ 0 := by
    rw [hmr]; unfold jsOrNat
    cases o.maxRetries with
    | none => simp [DEFAULT_MAX_RETRIES]
    | some n => by_cases hn : n = 0 <;> simp [hn, DEFAULT_MAX_RETRIES]
  have hrd0 : cfg.retryDelay ≠ 0 := by
    rw [hrd]; unfold jsOrNat
    cases o.retryDelay with
    | none => simp [DEFAULT_RETRY_DELAY]
    | some n => by_cases hn : n = 0 <;> simp [hn, DEFAULT_RETRY_DELAY]
  refine ⟨fun h0 => by simp [hmr, h0, jsOrNat], fun h0 => by simp [hrd, h0, jsOrNat],
    hmr0, hrd0, ?_⟩
  intro tr body rl m he hm
  obtain ⟨rem, hrem⟩ := Nat.exists_eq_succ_of_ne_zero hmr0
  simp only [makeRequest, Nat.sub_zero, hrem]
  rw [makeRequestGo_throw_succ cfg tr body rem 0 rl m he hm]
  have := makeRequestGo_calls_pos cfg tr body rem (0 + 1) rl
  simp only []
  omega

/-- Witness for C10 at explicit zero maxRetries and retryDelay: the
constructed client has the defaults and retries a failing transport. -/
theorem c10_witness :
    cfg10.maxRetries = DEFAULT_MAX_RETRIES ∧ cfg10.retryDelay = DEFAULT_RETRY_DELAY ∧
    cfg10.maxRetries ≠ 0 ∧ cfg10.retryDelay ≠ 0 ∧
    2 ≤ (makeRequest cfg10 trFail (Jx.jstr "b") RateLimitInfo.initial 0).calls := by
  have h := c10_zero_options_coalesce o10 cfg10 rfl
  exact ⟨h.1 rfl, h.2.1 rfl, h.2.2.1, h.2.2.2.1,
    h.2.2.2.2 trFail (Jx.jstr "b") RateLimitInfo.initial "ECONNRESET" (by decide) rfl⟩

end Theorems

end PostCrawl
